import Mathlib

/-!
Shallow embedding of the debindex tool: a pipeline that decompresses a
gzip index of file paths and package names, splits every line in two at
the first whitespace run, counts records per package value, ranks the
counts in descending order and either previews or serializes the result.
The definitions translate the single source module; the gzip, http and
dataframe libraries are external collaborators whose documented
contracts are modelled where the pipeline relies on them.
-/

namespace Debindex

/-- Character class of the whitespace regex used by the line splitter
on text strings: the six ASCII whitespace characters together with the
file, group, record and unit separators, next line, no-break space,
ogham space mark, the en quad through hair space range, line and
paragraph separators, narrow no-break space, medium mathematical space
and ideographic space — exactly the code points the host language's
regex engine treats as whitespace in text mode. -/
def isSpace (c : Char) : Bool :=
  let n := c.toNat
  n == 0x20 || (decide (0x09 ≤ n) && decide (n ≤ 0x0d))
    || (decide (0x1c ≤ n) && decide (n ≤ 0x1f))
    || n == 0x85 || n == 0xa0 || n == 0x1680
    || (decide (0x2000 ≤ n) && decide (n ≤ 0x200a))
    || n == 0x2028 || n == 0x2029 || n == 0x202f || n == 0x205f || n == 0x3000

/-- One parsed line of the index: the two columns produced by the
split, named filename and package at the call site.  The second column
is absent (a null in the source dataframe) when the value holds no
whitespace. -/
structure IndexRecord where
  filename : String
  package : Option String
  deriving DecidableEq, Repr

/-- Splitting of a character list at every occurrence of the separator,
keeping empty pieces, with the semantics of the Python split method and
of the csv field separator. -/
def splitChar (sep : Char) : List Char → List (List Char)
  | [] => [[]]
  | c :: cs =>
    if c = sep then [] :: splitChar sep cs
    else
      match splitChar sep cs with
      | [] => [[c]]
      | f :: rest => (c :: f) :: rest

/-- String form of the separator split. -/
def pySplit (sep : Char) (s : String) : List String :=
  (splitChar sep s.data).map (fun cs => ⟨cs⟩)

/-- Joining with a separator, with the semantics of the Python join
method. -/
def pyJoin (sep : String) : List String → String
  | [] => ""
  | [s] => s
  | s :: rest => s ++ sep ++ pyJoin sep rest

/-- Value landing in the single named dataframe column for one raw
line.  The csv reader runs with the default comma separator and a
single column name, so when a line holds commas the surplus leftmost
fields are consumed as the row index and the named column receives the
last comma-field; a line free of commas and of the quote character
passes through unchanged.  (Quote processing — dequoting of a field
that starts with the quote character, quoted fields spanning commas or
lines — the table-wide failure on ragged comma counts, and numeric
dtype inference are not modelled: every universal theorem about this
stage therefore restricts its lines to comma-free, quote-free ones,
and the comma counterexample uses a single unquoted line the reader
handles field by field.) -/
def csvColumn (line : String) : String :=
  (pySplit ',' line).getLastD ""

/-- Second half of the reading helper: the regex split of one column
value at the first whitespace run, with at most one split.  Everything
before the first whitespace character is the first column; the rest of
the value after the maximal whitespace run is kept verbatim as the
second column, which is absent when the value holds no whitespace at
all. -/
def parseLine (value : String) : IndexRecord :=
  match value.data.dropWhile (fun c => !isSpace c) with
  | [] => ⟨⟨value.data.takeWhile (fun c => !isSpace c)⟩, none⟩
  | a :: t => ⟨⟨value.data.takeWhile (fun c => !isSpace c)⟩, some ⟨(a :: t).dropWhile isSpace⟩⟩

/-- Compressed byte stream fed to the reading helper.  The gzip module
is an external collaborator; its documented contract distinguishes an
archive with valid framing holding the given text, a stream whose gzip
header or checksum is invalid, and a stream that is a proper prefix of
a valid archive because the transfer was cut short. -/
inductive ByteStream where
  | gzipped (text : String)
  | notGzip
  | truncated
  deriving DecidableEq, Repr

/-- Exceptions that can escape the pipeline stages: the invalid-URL
error of the http library, the bad-gzip-file error of the gzip module
on invalid framing, the keyboard interrupt, the empty-data error the
dataframe reader raises when the decompressed stream holds no data row,
and the end-of-file error the gzip module raises on a truncated
archive. -/
inductive PipelineError where
  | invalidURL
  | badGzipFile
  | keyboardInterrupt
  | emptyData
  | eofError
  deriving DecidableEq, Repr

/-- Decompression contract of the gzip module: invalid framing raises
the bad-gzip-file error, a truncated archive raises the end-of-file
error, and a valid archive yields its text. -/
def gunzip : ByteStream → Except PipelineError String
  | .gzipped text => .ok text
  | .notGzip => .error .badGzipFile
  | .truncated => .error .eofError

/-- Universal newline handling strips one trailing carriage return per
physical line. -/
def dropCR (s : String) : String :=
  if s.data.getLast? = some '\x0d' then ⟨s.data.dropLast⟩ else s

/-- Physical lines of the decompressed text as the csv reader sees
them: newline separated, carriage returns stripped, blank lines
skipped. -/
def toLines (text : String) : List String :=
  ((pySplit '\n' text).map dropCR).filter (fun l => l != "")

/-- The private reading helper: decompress, read the rows into one
named column, then split each value in two at the first whitespace run
and label the parts with the two column names passed at the call site.
A decompressed stream with no data row makes the reader raise the
empty-data error. -/
def _read_csv (data : ByteStream) : Except PipelineError (List IndexRecord) := do
  let text ← gunzip data
  let lines := toLines text
  if lines.isEmpty then
    Except.error .emptyData
  else
    pure (lines.map (fun l => parseLine (csvColumn l)))

/-- Reading the remote index: the http response body is wrapped in a
bytes buffer and handed to the reading helper. -/
def read_index_remote (body : ByteStream) : Except PipelineError (List IndexRecord) :=
  _read_csv body

/-- Reading the local index: the file path is handed to the reading
helper, which consumes the bytes stored at that path. -/
def read_index_local (fileBytes : ByteStream) : Except PipelineError (List IndexRecord) :=
  _read_csv fileBytes

/-- Keys present in the package column, nulls dropped. -/
def pkgKeys (df : List IndexRecord) : List String :=
  df.filterMap (fun r => r.package)

/-- Lexicographic code point order on character lists, mirroring the
string comparison the grouping machinery uses when it sorts the
keys. -/
def lexLe : List Char → List Char → Bool
  | [], _ => true
  | _ :: _, [] => false
  | a :: as, b :: bs =>
    if a = b then lexLe as bs
    else decide (a.toNat < b.toNat)

/-- Key order of the grouped table, as a relation on strings. -/
def keyLe (s t : String) : Prop := lexLe s.data t.data = true

instance : DecidableRel keyLe :=
  fun s t => Bool.decEq (lexLe s.data t.data) true

/-- Grouping keys of the pivot table: the distinct package values in
ascending order, as the grouping machinery produces them. -/
def pivotKeys (df : List IndexRecord) : List String :=
  List.insertionSort keyLe (pkgKeys df).dedup

/-- The pivot table with the size aggregation: one row per distinct
package value carrying the number of records holding exactly that
value; records whose package is null are dropped. -/
def pivot_table (df : List IndexRecord) : List (String × Nat) :=
  (pivotKeys df).map (fun k => (k, (pkgKeys df).count k))

/-- Counting and ranking: pivot to per-key sizes, then reorder the rows
by descending count.  The source reorders with an unstable sort whose
order among equal counts is unspecified; the model fixes one
deterministic order with a stable sort, and no theorem below depends on
the order among rows of equal count. -/
def count_occurrences (df : List IndexRecord) : List (String × Nat) :=
  List.insertionSort (fun a b => b.2 ≤ a.2) (pivot_table df)

instance : IsTotal (String × Nat) (fun a b => b.2 ≤ a.2) :=
  ⟨fun a b => Nat.le_total b.2 a.2⟩

instance : IsTrans (String × Nat) (fun a b => b.2 ≤ a.2) :=
  ⟨fun _ _ _ hab hbc => Nat.le_trans hbc hab⟩

/-- Bounded preview of the dataframe head method: a nonnegative
argument keeps the first rows up to the bound, a negative argument
keeps all rows but the last ones. -/
def head (df : List (String × Nat)) (n : Int) : List (String × Nat) :=
  if 0 ≤ n then df.take n.toNat
  else df.take ((df.length : Int) + n).toNat

/-- Minimal csv quoting of the serializer: a field holding the
separator, the quote character or a line break is wrapped in quotes
with inner quotes doubled. -/
def csvField (s : String) : String :=
  if s.any (fun c => c == ',' || c == '\x22' || c == '\n' || c == '\x0d')
  then "\x22" ++ s.replace "\x22" "\x22\x22" ++ "\x22"
  else s

/-- Serialization of the ranked result: one line per row, index and
value separated by a comma, no header line. -/
def to_csv (df : List (String × Nat)) : List String :=
  df.map (fun kc => csvField kc.1 ++ "," ++ toString kc.2)

/-- Observable effect of the output stage: either the lines written to
the destination file, or the rows shown inside the framed preview. -/
inductive Emission where
  | savedFile (path : String) (lines : List String)
  | preview (rows : List (String × Nat))
  deriving DecidableEq, Repr

/-- The output stage: with a destination path the whole result is
serialized to it; without one the first rows are printed, bounded by
the element count.  (The guard for a missing dataframe in the source is
dead at its single call site and not modelled.) -/
def output_result (df : List (String × Nat)) (file_path : Option String)
    (number_of_elements : Int) : Emission :=
  match file_path with
  | some fp => .savedFile fp (to_csv df)
  | none => .preview (head df number_of_elements)

/-- Index file name for the entered architecture. -/
def index_file_name (architecture : String) : String :=
  "Contents-" ++ architecture ++ ".gz"

/-- Name of the locally written download: the dot-separated pieces of
the index file name with the timestamp inserted before the last
piece. -/
def download_file_name (architecture timestamp : String) : String :=
  let parts := pySplit '.' (index_file_name architecture)
  pyJoin "." (parts.take (parts.length - 1) ++ [timestamp] ++ parts.drop (parts.length - 1))

/-- Command line inputs of the main command. -/
structure Args where
  baseurl : String
  architecture : String
  download : Bool
  output : Option String
  number_of_elements : Int
  deriving DecidableEq, Repr

/-- External world of one run: the body served for the index URL,
whether the http library rejects the base URL as invalid, whether a
keyboard interrupt arrives during the guarded block, and the timestamp
the clock renders (formatted as year month day dash hour minute
second). -/
structure Env where
  fetched : ByteStream
  urlInvalid : Bool
  interrupted : Bool
  timestamp : String
  deriving DecidableEq, Repr

/-- Observable outcome of one run: the downloaded file written to disk
with its verbatim bytes, the emission of the output stage, the error a
handler logged, the error escaping uncaught, and whether the closing
status line was printed. -/
structure RunResult where
  written : Option (String × ByteStream)
  emitted : Option Emission
  loggedError : Option PipelineError
  uncaught : Option PipelineError
  finished : Bool
  deriving DecidableEq, Repr

/-- The guarded block of the main command: with the download switch the
fetched bytes are first written verbatim to the timestamped file and
the same bytes are then read back from that file; otherwise the
response body is read directly; the occurrences of the parsed records
are then counted and the result emitted.  The first component records
the file written to disk, if any. -/
def tryBody (args : Args) (env : Env) :
    Option (String × ByteStream) × Except PipelineError Emission :=
  if env.interrupted then (none, .error .keyboardInterrupt)
  else if env.urlInvalid then (none, .error .invalidURL)
  else if args.download then
    (some (download_file_name args.architecture env.timestamp, env.fetched),
     (read_index_local env.fetched).map
       (fun df => output_result (count_occurrences df) args.output args.number_of_elements))
  else
    (none,
     (read_index_remote env.fetched).map
       (fun df => output_result (count_occurrences df) args.output args.number_of_elements))

/-- Exceptions with a handler at the top level of the main command. -/
def caught : PipelineError → Bool
  | .invalidURL => true
  | .badGzipFile => true
  | .keyboardInterrupt => true
  | _ => false

/-- The main command: run the guarded block; a handled exception is
logged and the run proceeds to the closing status line; any other
exception escapes uncaught and the closing line is never reached. -/
def runMain (args : Args) (env : Env) : RunResult :=
  match tryBody args env with
  | (written, .ok emission) => ⟨written, some emission, none, none, true⟩
  | (written, .error e) =>
    if caught e then ⟨written, none, some e, none, true⟩
    else ⟨written, none, none, some e, false⟩

end Debindex

namespace Debindex

/-! Helper lemmas shared by the claim theorems. -/

theorem splitChar_no_sep (sep : Char) (cs : List Char) (h : ∀ c ∈ cs, ¬ c = sep) :
    splitChar sep cs = [cs] := by
  induction cs with
  | nil => rfl
  | cons c cs ih =>
    have hc : ¬ c = sep := h c (by simp)
    have hrec : splitChar sep cs = [cs] := ih (fun d hd => h d (by simp [hd]))
    simp [splitChar, hc, hrec]

theorem splitChar_append (sep : Char) (xs ys : List Char) (h : ∀ c ∈ xs, ¬ c = sep) :
    splitChar sep (xs ++ sep :: ys) = xs :: splitChar sep ys := by
  induction xs with
  | nil => simp [splitChar]
  | cons c cs ih =>
    have hc : ¬ c = sep := h c (by simp)
    have hrec := ih (fun d hd => h d (by simp [hd]))
    simp [splitChar, hc, hrec]

theorem pairwise_count_occurrences (df : List IndexRecord) :
    List.Pairwise (fun a b : String × Nat => b.2 ≤ a.2) (count_occurrences df) :=
  List.sorted_insertionSort _ _

theorem sum_counts_eq (df : List IndexRecord) :
    ((count_occurrences df).map Prod.snd).sum = (pkgKeys df).length := by
  have h1 : ((count_occurrences df).map Prod.snd).sum
      = ((pivot_table df).map Prod.snd).sum :=
    ((List.perm_insertionSort _ _).map Prod.snd).sum_eq
  have h2 : ((pivotKeys df).map (fun k => (pkgKeys df).count k)).sum
      = ((pkgKeys df).dedup.map (fun k => (pkgKeys df).count k)).sum :=
    ((List.perm_insertionSort _ _).map _).sum_eq
  rw [h1, pivot_table, List.map_map]
  have h3 : (Prod.snd ∘ fun k => (k, (pkgKeys df).count k))
      = (fun k => (pkgKeys df).count k) := rfl
  rw [h3, h2, List.sum_map_count_dedup_eq_length]

theorem pkgKeys_length (df : List IndexRecord) :
    (pkgKeys df).length = df.countP (fun r => r.package.isSome) := by
  induction df with
  | nil => rfl
  | cons r rs ih =>
    simp only [pkgKeys, List.filterMap_cons, List.countP_cons] at *
    cases h : r.package <;> simp [h, ih]

end Debindex

namespace Debindex

end Debindex

namespace Debindex

theorem download_file_name_eq (architecture timestamp : String)
    (h : ∀ c ∈ architecture.data, ¬ c = '.') :
    download_file_name architecture timestamp
      = "Contents-" ++ architecture ++ "." ++ timestamp ++ ".gz" := by
  have hlit : ∀ c ∈ "Contents-".data, ¬ c = '.' := by decide
  have hpre : ∀ c ∈ ("Contents-" ++ architecture).data, ¬ c = '.' := by
    rw [String.data_append]
    intro c hc
    rcases List.mem_append.mp hc with h1 | h2
    · exact hlit c h1
    · exact h c h2
  have hdata : (index_file_name architecture).data
      = ("Contents-" ++ architecture).data ++ '.' :: "gz".data := by
    show ("Contents-" ++ architecture ++ ".gz").data = _
    rw [String.data_append ("Contents-" ++ architecture) ".gz", String.data_append]
  rw [download_file_name, pySplit, hdata, splitChar_append '.' _ _ hpre,
      splitChar_no_sep '.' "gz".data (by decide)]
  show pyJoin "."
      (([String.mk ("Contents-" ++ architecture).data, String.mk "gz".data].take
          ([String.mk ("Contents-" ++ architecture).data, String.mk "gz".data].length - 1))
        ++ [timestamp]
        ++ ([String.mk ("Contents-" ++ architecture).data, String.mk "gz".data].drop
          ([String.mk ("Contents-" ++ architecture).data, String.mk "gz".data].length - 1)))
      = _
  show pyJoin "." [String.mk ("Contents-" ++ architecture).data, timestamp, String.mk "gz".data] = _
  show String.mk ("Contents-" ++ architecture).data ++ "."
      ++ (timestamp ++ "." ++ String.mk "gz".data) = _
  apply String.ext
  simp [String.data_append, List.append_assoc]

end Debindex

namespace Debindex

/-- C2: for every input, the ranked result is sorted by count in
descending order: every adjacent pair a then b satisfies count b is at
most count a. -/
theorem ranked_result_sorted_descending (df : List IndexRecord) :
    List.Chain' (fun a b : String × Nat => b.2 ≤ a.2) (count_occurrences df) :=
  (pairwise_count_occurrences df).chain'

/-- C3 (counterexample): a line with trailing whitespace parses to a
present but empty packages string, and the aggregation counts that
empty key, so the sum of all counts is one while the number of records
with a non-empty package field is zero. -/
theorem empty_key_counted_counterexample :
    _read_csv (ByteStream.gzipped "foo ") = Except.ok [⟨"foo", some ""⟩]
    ∧ ¬ (((count_occurrences [⟨"foo", some ""⟩]).map Prod.snd).sum
        = List.countP
            (fun r : IndexRecord => match r.package with
              | some p => p != ""
              | none => false)
            [⟨"foo", some ""⟩]) :=
  ⟨rfl, by decide⟩

/-- C3 (amended): for every sequence of parsed records, the sum of all
counts in the ranked result equals the number of records whose package
field is present (non-null): records with an absent package field
contribute nothing, while a present empty-string package field is
counted under the empty key like any other value. -/
theorem counts_sum_to_present_records (df : List IndexRecord) :
    ((count_occurrences df).map Prod.snd).sum
      = df.countP (fun r => r.package.isSome) := by
  rw [sum_counts_eq, pkgKeys_length]

end Debindex

namespace Debindex

theorem tryBody_run (args : Args) (env : Env)
    (h1 : env.interrupted = false) (h2 : env.urlInvalid = false) :
    tryBody args env
      = (if args.download then
           some (download_file_name args.architecture env.timestamp, env.fetched)
         else none,
         (_read_csv env.fetched).map
           (fun df => output_result (count_occurrences df) args.output
             args.number_of_elements)) := by
  obtain ⟨base, arch, dl, out, n⟩ := args
  obtain ⟨fetched, uinv, intr, ts⟩ := env
  obtain rfl : intr = false := h1
  obtain rfl : uinv = false := h2
  cases dl <;> rfl

theorem runMain_of_error (args : Args) (env : Env) (e : PipelineError)
    (htb : (tryBody args env).2 = Except.error e) :
    (runMain args env).written = (tryBody args env).1
    ∧ (runMain args env).emitted = none
    ∧ (runMain args env).loggedError = (if caught e then some e else none)
    ∧ (runMain args env).uncaught = (if caught e then none else some e)
    ∧ (runMain args env).finished = caught e := by
  rcases hp : tryBody args env with ⟨w, r⟩
  obtain rfl : r = Except.error e := by rw [hp] at htb; exact htb
  unfold runMain
  rw [hp]
  by_cases hc : caught e = true
  · simp [hc]
  · rw [Bool.not_eq_true] at hc
    simp [hc]

end Debindex

namespace Debindex

/-- C4 (counterexample): a truncated gzip stream is not valid gzip,
yet decode and parse fails with the end-of-file error rather than the
bad-gzip-file (corrupt index) error kind, and that error has no
top-level handler. -/
theorem truncated_gzip_counterexample :
    _read_csv ByteStream.truncated = Except.error PipelineError.eofError
    ∧ PipelineError.eofError ≠ PipelineError.badGzipFile
    ∧ caught PipelineError.eofError = false :=
  ⟨rfl, by decide, rfl⟩

/-- C4 (amended): a byte stream whose gzip framing is invalid (bad
header or checksum) makes decode and parse fail with the bad-gzip-file
error kind: no records are returned, the run emits no output, logs the
error and still finishes; a stream that is a truncated prefix of a
valid archive instead fails with the uncaught end-of-file error. -/
theorem bad_gzip_fails_without_output (args : Args) (env : Env)
    (h1 : env.interrupted = false) (h2 : env.urlInvalid = false)
    (h3 : env.fetched = ByteStream.notGzip) :
    _read_csv env.fetched = Except.error PipelineError.badGzipFile
    ∧ (runMain args env).emitted = none
    ∧ (runMain args env).loggedError = some PipelineError.badGzipFile
    ∧ (runMain args env).finished = true := by
  have hcsv : _read_csv env.fetched = Except.error PipelineError.badGzipFile := by
    rw [h3]
    rfl
  have htb : (tryBody args env).2 = Except.error PipelineError.badGzipFile := by
    rw [tryBody_run args env h1 h2]
    rw [show ((if args.download then
        some (download_file_name args.architecture env.timestamp, env.fetched)
      else none,
      (_read_csv env.fetched).map
        (fun df => output_result (count_occurrences df) args.output
          args.number_of_elements)).2)
      = (_read_csv env.fetched).map
          (fun df => output_result (count_occurrences df) args.output
            args.number_of_elements) from rfl, hcsv]
    rfl
  obtain ⟨hw, hem, hl, hu, hf⟩ := runMain_of_error args env _ htb
  exact ⟨hcsv, hem, by rw [hl]; rfl, by rw [hf]; rfl⟩

/-- C4 (witness): the amended corrupt-input behavior on a concrete
run. -/
theorem bad_gzip_witness :
    (runMain ⟨"http://mirror", "amd64", false, none, 10⟩
        ⟨ByteStream.notGzip, false, false, "20260101-000000"⟩).emitted = none :=
  (bad_gzip_fails_without_output ⟨"http://mirror", "amd64", false, none, 10⟩
    ⟨ByteStream.notGzip, false, false, "20260101-000000"⟩ rfl rfl rfl).2.1

/-- C5 (counterexample): on an empty (zero-line) decompressed stream
the reader raises the empty-data error, which has no top-level
handler: the run yields no ranked result, emits nothing, the error
escapes uncaught and the closing status line is not printed. -/
theorem empty_input_counterexample :
    _read_csv (ByteStream.gzipped "") = Except.error PipelineError.emptyData
    ∧ runMain ⟨"http://mirror", "amd64", false, none, 10⟩
        ⟨ByteStream.gzipped "", false, false, "20260101-000000"⟩
      = ⟨none, none, none, some PipelineError.emptyData, false⟩ :=
  ⟨rfl, rfl⟩

/-- C5 (amended): for every run over an empty (zero-line) decompressed
stream, the pipeline does not yield an empty ranked result: the
empty-data error escapes uncaught, nothing is emitted and the run does
not reach the closing status line. -/
theorem empty_input_crashes (args : Args) (env : Env)
    (h1 : env.interrupted = false) (h2 : env.urlInvalid = false)
    (h3 : env.fetched = ByteStream.gzipped "") :
    (runMain args env).uncaught = some PipelineError.emptyData
    ∧ (runMain args env).emitted = none
    ∧ (runMain args env).finished = false := by
  have htb : (tryBody args env).2 = Except.error PipelineError.emptyData := by
    rw [tryBody_run args env h1 h2, h3]
    rfl
  obtain ⟨hw, hem, hl, hu, hf⟩ := runMain_of_error args env _ htb
  exact ⟨by rw [hu]; rfl, hem, by rw [hf]; rfl⟩

/-- C5 (witness): the amended empty-input behavior on a concrete
run. -/
theorem empty_input_witness :
    (runMain ⟨"http://mirror", "amd64", false, some "out.csv", 10⟩
        ⟨ByteStream.gzipped "", false, false, "20260101-000000"⟩).finished = false :=
  (empty_input_crashes ⟨"http://mirror", "amd64", false, some "out.csv", 10⟩
    ⟨ByteStream.gzipped "", false, false, "20260101-000000"⟩ rfl rfl rfl).2.2

/-- C6 (counterexample): the preview length is not min of the limit
and the result size for every limit: the command line accepts a
negative limit, and the head method then keeps all rows but the last
ones, here one row out of two instead of the impossible minus one. -/
theorem negative_preview_counterexample :
    output_result (count_occurrences [⟨"a", some "x"⟩, ⟨"b", some "y"⟩]) none (-1)
      = Emission.preview [("x", 1)]
    ∧ ¬ (((head (count_occurrences [⟨"a", some "x"⟩, ⟨"b", some "y"⟩]) (-1)).length : Int)
        = min (-1 : Int)
            ((count_occurrences [⟨"a", some "x"⟩, ⟨"b", some "y"⟩]).length : Int)) :=
  ⟨by decide, by decide⟩

/-- C6 (amended): for every ranked result and every nonnegative
preview limit, displaying with that limit and no destination yields
exactly min of limit and result size entries, every kept entry has a
count at least that of every dropped entry, and a limit at least the
result size yields the entire result with no error. -/
theorem nonneg_preview_bound (df : List IndexRecord) (n : Int) (hn : 0 ≤ n) :
    output_result (count_occurrences df) none n
      = Emission.preview ((count_occurrences df).take n.toNat)
    ∧ ((count_occurrences df).take n.toNat).length
        = min n.toNat (count_occurrences df).length
    ∧ (∀ a ∈ (count_occurrences df).take n.toNat,
        ∀ b ∈ (count_occurrences df).drop n.toNat, b.2 ≤ a.2)
    ∧ ((count_occurrences df).length ≤ n.toNat →
        (count_occurrences df).take n.toNat = count_occurrences df) := by
  refine ⟨?_, List.length_take n.toNat (count_occurrences df), ?_,
    fun h => List.take_of_length_le h⟩
  · show Emission.preview (head (count_occurrences df) n) = _
    rw [head, if_pos hn]
  · have hp := pairwise_count_occurrences df
    rw [← List.take_append_drop n.toNat (count_occurrences df)] at hp
    exact (List.pairwise_append.mp hp).2.2

/-- C6 (witness): the amended preview bound at a concrete result and
limit. -/
theorem preview_bound_witness :
    output_result (count_occurrences [⟨"a", some "x"⟩]) none 2
      = Emission.preview ((count_occurrences [⟨"a", some "x"⟩]).take (Int.toNat 2)) :=
  (nonneg_preview_bound [⟨"a", some "x"⟩] 2 (by decide)).1

/-- C7: for every ranked result and destination path, the output stage
serializes the full result: one comma separated line per key and count
row, as many lines as rows, no header line, in the result's
descending-count order. -/
theorem file_output_full_result (df : List IndexRecord) (fp : String) (n : Int) :
    ∃ ls : List String,
      output_result (count_occurrences df) (some fp) n = Emission.savedFile fp ls
      ∧ ls.length = (count_occurrences df).length
      ∧ (∀ i : Nat, ls[i]? = ((count_occurrences df)[i]?).map
          (fun kc => csvField kc.1 ++ "," ++ toString kc.2))
      ∧ List.Chain' (fun a b : String × Nat => b.2 ≤ a.2) (count_occurrences df) := by
  refine ⟨to_csv (count_occurrences df), rfl, ?_, ?_,
    (pairwise_count_occurrences df).chain'⟩
  · rw [to_csv, List.length_map]
  · intro i
    rw [to_csv, List.getElem?_map]

/-- C8 (counterexample): the downloaded file is named with the
timestamp inserted between the architecture and the gz suffix,
separated by dots; it is not Contents dash timestamp dash architecture
dot gz. -/
theorem download_name_counterexample :
    download_file_name "amd64" "20260101-000000"
      = "Contents-amd64.20260101-000000.gz"
    ∧ download_file_name "amd64" "20260101-000000"
      ≠ "Contents-20260101-000000-amd64.gz" :=
  ⟨rfl, by decide⟩

/-- C8 (amended): with the download option, the fetched bytes are
written verbatim to a file whose name inserts the clock timestamp
(rendered year month day dash hour minute second) as an extra
dot-separated piece before the gz suffix of the index file name, so a
dot-free architecture gives Contents dash architecture dot timestamp
dot gz, and the parsing stage then reads back exactly the bytes that
were written. -/
theorem download_round_trip (args : Args) (env : Env)
    (hd : args.download = true) (h1 : env.interrupted = false)
    (h2 : env.urlInvalid = false) :
    (tryBody args env).1
      = some (download_file_name args.architecture env.timestamp, env.fetched)
    ∧ (tryBody args env).2
      = (_read_csv env.fetched).map
          (fun df => output_result (count_occurrences df) args.output
            args.number_of_elements)
    ∧ ((∀ c ∈ args.architecture.data, ¬ c = '.') →
        download_file_name args.architecture env.timestamp
          = "Contents-" ++ args.architecture ++ "." ++ env.timestamp ++ ".gz") := by
  rw [tryBody_run args env h1 h2, hd]
  exact ⟨rfl, rfl, fun h => download_file_name_eq args.architecture env.timestamp h⟩

/-- C8 (witness): the amended download naming and round trip on a
concrete run. -/
theorem download_round_trip_witness :
    (tryBody ⟨"http://mirror", "amd64", true, none, 10⟩
        ⟨ByteStream.gzipped "p x", false, false, "20260101-000000"⟩).1
      = some ("Contents-amd64.20260101-000000.gz", ByteStream.gzipped "p x") := by
  have h := download_round_trip ⟨"http://mirror", "amd64", true, none, 10⟩
      ⟨ByteStream.gzipped "p x", false, false, "20260101-000000"⟩ rfl rfl rfl
  rw [h.1, h.2.2 (by decide)]
  rfl

/-- C9: for every run in which one of the three recognized error kinds
occurs (invalid URL, bad gzip file, keyboard interrupt), the top level
handles it: the error is logged, nothing escapes uncaught, no output is
emitted, and the closing status line is still printed. -/
theorem recognized_errors_handled (args : Args) (env : Env) (e : PipelineError)
    (he : e = PipelineError.invalidURL ∨ e = PipelineError.badGzipFile
      ∨ e = PipelineError.keyboardInterrupt)
    (htb : (tryBody args env).2 = Except.error e) :
    (runMain args env).loggedError = some e
    ∧ (runMain args env).uncaught = none
    ∧ (runMain args env).emitted = none
    ∧ (runMain args env).finished = true := by
  have hc : caught e = true := by rcases he with rfl | rfl | rfl <;> rfl
  obtain ⟨hw, hem, hl, hu, hf⟩ := runMain_of_error args env e htb
  rw [hc] at hl hu hf
  exact ⟨by rw [hl]; rfl, by rw [hu]; rfl, hem, hf⟩

/-- C9 (witness): a handled bad-gzip error on a concrete run still
reaches the closing status line. -/
theorem recognized_errors_witness :
    (runMain ⟨"http://mirror", "i386", false, none, 5⟩
        ⟨ByteStream.notGzip, false, false, "20260101-000000"⟩).finished = true :=
  (recognized_errors_handled ⟨"http://mirror", "i386", false, none, 5⟩
    ⟨ByteStream.notGzip, false, false, "20260101-000000"⟩ PipelineError.badGzipFile
    (Or.inr (Or.inl rfl)) rfl).2.2.2

/-- C10: for every byte content, reading the index remotely over the
response body and reading a local file holding exactly the same bytes
produce identical parsed record tables, both delegating to the shared
reading helper. -/
theorem remote_local_read_agree (data : ByteStream) :
    read_index_remote data = _read_csv data
    ∧ read_index_local data = _read_csv data
    ∧ read_index_remote data = read_index_local data :=
  ⟨rfl, rfl, rfl⟩

end Debindex
